import Mathlib

/-!
Shallow embedding of `src/joystick_mouse.py` — the input-conditioning and
mode-control core of the joystick→mouse program.

Modelling conventions:
* Python floats are idealised as exact numbers: velocities and the motion
  arithmetic (which involve a square root) live in `ℝ`; tunable parameters,
  axis samples and timestamps live in `ℚ` so that control-flow decisions
  stay decidable.
* The `btn_state` dictionary (keys are the string literals `"cfg"`, `"save"`,
  `"stop"`, `"resume"`, `"mute"`, `"play"`) is embedded as a total function
  from a six-constructor control-id type to `Bool`; `dict.get(key, False)`
  is the function applied at the key, an absent entry being `false`.
* External effects (ydotool calls, log lines, the config-file write) are
  recorded as an ordered list of `Action` values per tick; the success of
  the external `save_config` call is an oracle bit `saveOk` on the tick
  input, consumed exactly where the source consumes the return of
  `save_config`.
* Rendering, the argparse/load_config startup sequence and process
  management are outside the embedded core (the claims do not touch them).
-/

namespace JoystickMouse

/-- The mutable `args` namespace: the five tunable parameters adjusted by the
CONFIG menu plus the axis/button bindings the control loop reads
(from `DEFAULT_PARAMS` in the source; display-only entries omitted). -/
structure Args where
  sensitivity : ℚ
  deadzone : ℚ
  max_velocity : ℚ
  friction : ℚ
  acceleration : ℚ
  mouse_x_axis : ℕ
  mouse_y_axis : ℕ
  btn_left_drag : ℕ
  btn_right_click : ℕ
  btn_mute : ℕ
  btn_play_pause : ℕ
  btn_stop_mouse : ℕ
  btn_resume_mouse : ℕ
  btn_enter_config : ℕ
  btn_save_config : ℕ
deriving DecidableEq

/-- `DEFAULT_PARAMS` of the source, restricted to the fields above. -/
def DEFAULT_PARAMS : Args where
  sensitivity := 1.2
  deadzone := 0.07
  max_velocity := 13.0
  friction := 0.6
  acceleration := 10.0
  mouse_x_axis := 0
  mouse_y_axis := 1
  btn_left_drag := 0
  btn_right_click := 1
  btn_mute := 2
  btn_play_pause := 3
  btn_stop_mouse := 6
  btn_resume_mouse := 5
  btn_enter_config := 10
  btn_save_config := 9

/-- Names of the five parameters listed in `CONFIG_ITEMS`. -/
inductive ParamName where
  | sensitivity
  | deadzone
  | max_velocity
  | friction
  | acceleration
deriving DecidableEq

/-- `getattr(args, k)` for a tunable parameter name. -/
def getParam (a : Args) : ParamName → ℚ
  | .sensitivity => a.sensitivity
  | .deadzone => a.deadzone
  | .max_velocity => a.max_velocity
  | .friction => a.friction
  | .acceleration => a.acceleration

/-- `setattr(args, k, v)` for a tunable parameter name. -/
def setParam (a : Args) : ParamName → ℚ → Args
  | .sensitivity, v => { a with sensitivity := v }
  | .deadzone, v => { a with deadzone := v }
  | .max_velocity, v => { a with max_velocity := v }
  | .friction, v => { a with friction := v }
  | .acceleration, v => { a with acceleration := v }

/-- One entry `(k, step, mn, mx, fmt)` of `CONFIG_ITEMS`; the format string
`fmt` is display-only and omitted. -/
structure ConfigItem where
  k : ParamName
  step : ℚ
  mn : ℚ
  mx : ℚ
deriving DecidableEq

/-- The `CONFIG_ITEMS` table of the source. -/
def CONFIG_ITEMS : List ConfigItem :=
  [⟨.sensitivity, 0.1, 0.1, 7.0⟩,
   ⟨.deadzone, 0.01, 0.0, 0.3⟩,
   ⟨.max_velocity, 1.0, 1.0, 30.0⟩,
   ⟨.friction, 0.1, 0.1, 1.0⟩,
   ⟨.acceleration, 0.1, 1.0, 20.0⟩]

/-- Round-half-to-even on `ℚ`, the rounding mode of Python's builtin
`round` (idealising the float argument as an exact rational). -/
def roundHalfEven (q : ℚ) : ℤ :=
  let f := ⌊q⌋
  let r := q - f
  if r < 1 / 2 then f
  else if 1 / 2 < r then f + 1
  else if 2 ∣ f then f else f + 1

/-- Python `round(q, 2)`. -/
def pyRound2 (q : ℚ) : ℚ := (roundHalfEven (q * 100) : ℚ) / 100

/-- One CONFIG-menu adjustment of a parameter value (source line 250-251):
`delta = step if hat == (1,0) else -step` and
`new_val = max(mn, min(mx, round(val + delta, 2) if step < 1 else val + delta))`. -/
def adjust (step mn mx : ℚ) (dirRight : Bool) (val : ℚ) : ℚ :=
  let delta := if dirRight then step else -step
  max mn (min mx (if step < 1 then pyRound2 (val + delta) else val + delta))

/-- The keys of the `btn_state` dictionary: the string literals `"cfg"`,
`"save"`, `"stop"`, `"resume"`, `"mute"`, `"play"` of the source. -/
inductive CId where
  | cfg
  | save
  | stop
  | resume
  | mute
  | play
deriving DecidableEq

/-- The `edge` closure of the source (lines 225-233): given the `btn_state`
mapping, a key and the current button level `p`, return whether a rising edge
fired together with the updated mapping.  `btn_state.get(key, False)` is the
map applied at the key; a `p and was` call leaves the mapping untouched. -/
def edge (bs : CId → Bool) (key : CId) (p : Bool) : Bool × (CId → Bool) :=
  let was := bs key
  if p && !was then (true, Function.update bs key true)
  else if !p then (false, Function.update bs key false)
  else (false, bs)

/-- Iterate `n` calls of `edge` at `key` with the level held `true`, counting
how many of them report a rising edge. -/
def edgeCalls : ℕ → (CId → Bool) → CId → ℕ
  | 0, _, _ => 0
  | n + 1, bs, key =>
      (if (edge bs key true).1 then 1 else 0) + edgeCalls n (edge bs key true).2 key

/-- One tick's worth of raw device state plus the two external oracles the
loop body consumes: the wall-clock reading `now` (`time.time()`) and the
boolean result `saveOk` that `save_config` would return if called. -/
structure TickInput where
  connected : Bool
  axes : ℕ → ℚ
  buttons : ℕ → Bool
  hat : ℤ × ℤ
  now : ℚ
  saveOk : Bool

/-- `Joy.a`: an axis read degrades to `0.0` when disconnected. -/
def axisRead (inp : TickInput) (i : ℕ) : ℚ :=
  if inp.connected then inp.axes i else 0

/-- `Joy.b`: a button read degrades to `False` when disconnected. -/
def btnRead (inp : TickInput) (i : ℕ) : Bool :=
  inp.connected && inp.buttons i

/-- `Joy.h`: the hat read degrades to `(0, 0)` when disconnected. -/
def hatRead (inp : TickInput) : ℤ × ℤ :=
  if inp.connected then inp.hat else (0, 0)

/-- The literal `cmds` dictionary of line 275 mapping the four cardinal hat
states to key codes. -/
def cmds (h : ℤ × ℤ) : Option ℕ :=
  if h = (0, -1) then some 114
  else if h = (0, 1) then some 115
  else if h = (1, 0) then some 163
  else if h = (-1, 0) then some 165
  else none

/-- The observable effects one tick emits: ydotool invocations and log
lines.  `logParam` stands for the `log.add` of an adjusted parameter and
`saveFile` for the `save_config` file write. -/
inductive Action where
  | logMsg (m : String)
  | logParam (k : ParamName) (v : ℚ)
  | keyTap (code : ℕ)
  | move (dx dy : ℤ)
  | click (code : ℕ)
  | saveFile
deriving DecidableEq

/-- The mutable state of the main loop (lines 207-214), including the
mutable `args` namespace. -/
structure LoopState where
  args : Args
  vx : ℝ
  vy : ℝ
  mouseActive : Bool
  dragging : Bool
  configMode : Bool
  sel : ℤ
  prevHat : ℤ × ℤ
  lastHatTime : ℚ
  btnState : CId → Bool

/-- The loop state as initialised at lines 207-214 (with `args` as given). -/
def initState (a : Args) : LoopState where
  args := a
  vx := 0
  vy := 0
  mouseActive := true
  dragging := false
  configMode := false
  sel := 0
  prevHat := (0, 0)
  lastHatTime := 0
  btnState := fun _ => false

/-- The deadzone filter (lines 282-285): an axis whose absolute value is
below the deadzone is replaced by `0`. -/
def condition (rawX rawY dz : ℚ) : ℚ × ℚ :=
  ((if |rawX| < dz then 0 else rawX), (if |rawY| < dz then 0 else rawY))

/-- The velocity ceiling (lines 292-295): if `sqrt (vx² + vy²)` exceeds
`maxVel`, both components are divided by the speed and multiplied by
`maxVel`. -/
noncomputable def clampVel (maxVel vx vy : ℝ) : ℝ × ℝ :=
  if Real.sqrt (vx ^ 2 + vy ^ 2) > maxVel then
    (vx / Real.sqrt (vx ^ 2 + vy ^ 2) * maxVel,
     vy / Real.sqrt (vx ^ 2 + vy ^ 2) * maxVel)
  else (vx, vy)

/-- One velocity-integration step (lines 287-295): accelerate by the
conditioned inputs, apply friction, then clamp. -/
noncomputable def integrate (fx fy accel friction maxVel vx vy : ℝ) : ℝ × ℝ :=
  clampVel maxVel ((vx + fx * accel) * friction) ((vy + fy * accel) * friction)

/-- Python `int()` on a real value: truncation toward zero (line 297-298). -/
noncomputable def pyInt (x : ℝ) : ℤ :=
  if 0 ≤ x then ⌊x⌋ else ⌈x⌉

/-- The debounced CONFIG-mode pad handling (lines 240-253): on a pad tuple
change accepted by the 0.18 s gate, record the acceptance time, move the
selection on up/down, and adjust the selected parameter on left/right. -/
def configNav (inp : TickInput) (s : LoopState) : LoopState × List Action :=
  let now := inp.now
  let hat := hatRead inp
  if hat ≠ s.prevHat ∧ now - s.lastHatTime > 0.18 then
    let s1 := { s with lastHatTime := now }
    let s2 := if hat = (0, 1) then
        { s1 with sel := (s1.sel + 1) % (CONFIG_ITEMS.length : ℤ) } else s1
    let s3 := if hat = (0, -1) then
        { s2 with sel := (s2.sel - 1) % (CONFIG_ITEMS.length : ℤ) } else s2
    if hat = (1, 0) ∨ hat = (-1, 0) then
      let item := CONFIG_ITEMS.getD s3.sel.toNat ⟨.sensitivity, 0, 0, 0⟩
      let val := getParam s3.args item.k
      let newVal := adjust item.step item.mn item.mx (hat = (1, 0)) val
      ({ s3 with args := setParam s3.args item.k newVal },
        [Action.logParam item.k newVal])
    else (s3, [])
  else (s, [])

/-- The CONFIG-mode branch of the loop body (lines 239-259), entered after
the `"cfg"` edge has been processed: the debounced pad handling followed by
the `"save"` edge check. -/
def configTick (inp : TickInput) (s : LoopState) : LoopState × List Action :=
  let r1 := configNav inp s
  let s4 := r1.1
  let e := edge s4.btnState .save (btnRead inp s4.args.btn_save_config)
  if e.1 then
    ({ s4 with btnState := e.2, configMode := false },
      r1.2 ++ [Action.saveFile] ++
        (if inp.saveOk then [Action.logMsg "SAVED joystick_config.json"] else []))
  else ({ s4 with btnState := e.2 }, r1.2)

/-- The motion block of the NORMAL branch (lines 280-310), reached only when
`mouse_active and joy.connected` holds: deadzone filtering, velocity
integration with clamp, the integer pixel delta, right-click by level and the
drag begin/end pair. -/
noncomputable def motionTick (inp : TickInput) (s : LoopState) : LoopState × List Action :=
  let a := s.args
  let c := condition (axisRead inp a.mouse_x_axis) (axisRead inp a.mouse_y_axis) a.deadzone
  let v := integrate (c.1 : ℝ) (c.2 : ℝ) (a.acceleration : ℝ) (a.friction : ℝ)
    (a.max_velocity : ℝ) s.vx s.vy
  let dx := pyInt (v.1 * (a.sensitivity : ℝ))
  let dy := pyInt (v.2 * (a.sensitivity : ℝ))
  let actsM := if dx ≠ 0 ∨ dy ≠ 0 then [Action.move dx dy] else []
  let actsR := if btnRead inp a.btn_right_click then [Action.click 0xC1] else []
  let pressed := btnRead inp a.btn_left_drag
  let dragRes : Bool × List Action :=
    if pressed && !s.dragging then (true, [Action.click 0x40])
    else if !pressed && s.dragging then (false, [Action.click 0xB0])
    else (s.dragging, [])
  ({ s with vx := v.1, vy := v.2, dragging := dragRes.1 },
    actsM ++ actsR ++ dragRes.2)

/-- The key-tap list a pad state produces through the `cmds` lookup of
lines 275-277: one tap when the tuple is in the dictionary, none otherwise. -/
def hatActs : Option ℕ → List Action
  | some c => [Action.keyTap c]
  | none => []

/-- The NORMAL-mode branch of the loop body (lines 260-310), entered after
the `"cfg"` edge has been processed: stop/resume/mute/play edges, hat key
taps, then — gated by `mouse_active and joy.connected` — the motion block. -/
noncomputable def normalTick (inp : TickInput) (s : LoopState) : LoopState × List Action :=
  let a := s.args
  let e1 := edge s.btnState .stop (btnRead inp a.btn_stop_mouse)
  let ma1 := if e1.1 then false else s.mouseActive
  let acts1 := if e1.1 then [Action.logMsg "MOUSE STOPPED"] else []
  let e2 := edge e1.2 .resume (btnRead inp a.btn_resume_mouse)
  let ma2 := if e2.1 then true else ma1
  let acts2 := if e2.1 then [Action.logMsg "MOUSE RESUMED"] else []
  let e3 := edge e2.2 .mute (btnRead inp a.btn_mute)
  let acts3 := if e3.1 then [Action.keyTap 113, Action.logMsg "MUTE"] else []
  let e4 := edge e3.2 .play (btnRead inp a.btn_play_pause)
  let acts4 := if e4.1 then [Action.keyTap 164, Action.logMsg "PLAY/PAUSE"] else []
  let hat := hatRead inp
  let acts5 := if hat ≠ s.prevHat then hatActs (cmds hat) else []
  let s5 := { s with btnState := e4.2, mouseActive := ma2 }
  if ma2 && inp.connected then
    let m := motionTick inp s5
    (m.1, acts1 ++ acts2 ++ acts3 ++ acts4 ++ acts5 ++ m.2)
  else
    (s5, acts1 ++ acts2 ++ acts3 ++ acts4 ++ acts5)

/-- One full iteration of the main loop body (lines 222-312): read the hat,
process the `"cfg"` toggle edge, dispatch to the CONFIG or NORMAL branch,
and record `prev_hat = hat`. -/
noncomputable def tick (inp : TickInput) (s : LoopState) : LoopState × List Action :=
  let hat := hatRead inp
  let e := edge s.btnState .cfg (btnRead inp s.args.btn_enter_config)
  let mode := if e.1 then !s.configMode else s.configMode
  let actsT := if e.1 then
      [Action.logMsg (if mode then "CONFIG MODE" else "NORMAL MODE")] else []
  let s1 := { s with btnState := e.2, configMode := mode }
  let r := if mode then configTick inp s1 else normalTick inp s1
  ({ r.1 with prevHat := hat }, actsT ++ r.2)

/-- Run the loop over a list of tick inputs. -/
noncomputable def run (inps : List TickInput) (s : LoopState) : LoopState :=
  inps.foldl (fun st i => (tick i st).1) s

/-! ### Helper lemmas about the edge detector -/

lemma edge_fire_of_false {bs : CId → Bool} {c : CId} (h : bs c = false) :
    edge bs c true = (true, Function.update bs c true) := by
  simp [edge, h]

lemma edge_skip_of_true {bs : CId → Bool} {c : CId} (h : bs c = true) :
    edge bs c true = (false, bs) := by
  simp [edge, h]

lemma edge_level_false (bs : CId → Bool) (c : CId) :
    edge bs c false = (false, Function.update bs c false) := by
  simp [edge]

lemma edgeCalls_zero_of_true {bs : CId → Bool} {c : CId} (h : bs c = true) :
    ∀ n, edgeCalls n bs c = 0 := by
  intro n
  induction n with
  | zero => rfl
  | succ m ih =>
      rw [edgeCalls, edge_skip_of_true h]
      simpa using ih

/-- C2 helper: the second component of `edge` never changes the stored state
of a different control id. -/
lemma edge_other_key (bs : CId → Bool) (c c' : CId) (p : Bool) (h : c' ≠ c) :
    (edge bs c p).2 c' = bs c' := by
  cases p with
  | false => rw [edge_level_false]; exact Function.update_noteq h _ _
  | true =>
      cases hb : bs c with
      | false => rw [edge_fire_of_false hb]; exact Function.update_noteq h _ _
      | true => rw [edge_skip_of_true hb]

/-- C2: a call `edge(c, true)` when the stored state for `c` is `false`
returns `true` and stores `true`; any run of `n ≥ 1` consecutive
`edge(c, true)` calls starting from stored state `false` reports the rising
edge exactly once; and an `edge` call at `c` leaves every other control id's
stored state untouched. -/
theorem c2_edge_fires_once (bs : CId → Bool) (c : CId) (h : bs c = false) :
    (edge bs c true).1 = true ∧ (edge bs c true).2 c = true ∧
    (∀ n, 1 ≤ n → edgeCalls n bs c = 1) ∧
    (∀ c' p, c' ≠ c → (edge bs c p).2 c' = bs c') := by
  refine ⟨by rw [edge_fire_of_false h], ?_, ?_, ?_⟩
  · rw [edge_fire_of_false h]
    exact Function.update_same c true bs
  · intro n hn
    obtain ⟨m, rfl⟩ : ∃ m, n = m + 1 := ⟨n - 1, (Nat.succ_pred_eq_of_pos hn).symm⟩
    rw [edgeCalls, edge_fire_of_false h]
    have hupd : Function.update bs c true c = true := Function.update_same c true bs
    rw [edgeCalls_zero_of_true hupd m]
    simp
  · intro c' p h'
    exact edge_other_key bs c c' p h'

/-- C2 witness: starting from the empty `btn_state`, five consecutive held
calls at `stop` report exactly one rising edge. -/
theorem c2_edge_fires_once_witness :
    (fun _ => false : CId → Bool) CId.stop = false ∧
    edgeCalls 5 (fun _ => false) CId.stop = 1 :=
  ⟨rfl, (c2_edge_fires_once (fun _ => false) CId.stop rfl).2.2.1 5 (by norm_num)⟩

lemma clampVel_of_le {maxVel vx vy : ℝ} (h : Real.sqrt (vx ^ 2 + vy ^ 2) ≤ maxVel) :
    clampVel maxVel vx vy = (vx, vy) := by
  unfold clampVel
  exact if_neg (not_lt.2 h)

lemma clampVel_of_gt {maxVel vx vy : ℝ} (h : maxVel < Real.sqrt (vx ^ 2 + vy ^ 2)) :
    clampVel maxVel vx vy =
      (vx * (maxVel / Real.sqrt (vx ^ 2 + vy ^ 2)),
       vy * (maxVel / Real.sqrt (vx ^ 2 + vy ^ 2))) := by
  unfold clampVel
  rw [if_pos h]
  simp only [Prod.mk.injEq]
  constructor <;> ring

/-! ### Structural lemmas about the tick function -/

lemma setParam_btn_enter_config (a : Args) (k : ParamName) (v : ℚ) :
    (setParam a k v).btn_enter_config = a.btn_enter_config := by
  cases k <;> rfl

lemma setParam_btn_save_config (a : Args) (k : ParamName) (v : ℚ) :
    (setParam a k v).btn_save_config = a.btn_save_config := by
  cases k <;> rfl

lemma configNav_btnState (inp : TickInput) (s : LoopState) :
    (configNav inp s).1.btnState = s.btnState := by
  simp only [configNav]
  split_ifs <;> rfl

lemma configNav_vx (inp : TickInput) (s : LoopState) :
    (configNav inp s).1.vx = s.vx := by
  simp only [configNav]
  split_ifs <;> rfl

lemma configNav_vy (inp : TickInput) (s : LoopState) :
    (configNav inp s).1.vy = s.vy := by
  simp only [configNav]
  split_ifs <;> rfl

lemma configNav_mouseActive (inp : TickInput) (s : LoopState) :
    (configNav inp s).1.mouseActive = s.mouseActive := by
  simp only [configNav]
  split_ifs <;> rfl

lemma configNav_dragging (inp : TickInput) (s : LoopState) :
    (configNav inp s).1.dragging = s.dragging := by
  simp only [configNav]
  split_ifs <;> rfl

lemma configNav_configMode (inp : TickInput) (s : LoopState) :
    (configNav inp s).1.configMode = s.configMode := by
  simp only [configNav]
  split_ifs <;> rfl

lemma configNav_prevHat (inp : TickInput) (s : LoopState) :
    (configNav inp s).1.prevHat = s.prevHat := by
  simp only [configNav]
  split_ifs <;> rfl

lemma configNav_btn_save_config (inp : TickInput) (s : LoopState) :
    (configNav inp s).1.args.btn_save_config = s.args.btn_save_config := by
  simp only [configNav]
  split_ifs <;> simp [setParam_btn_save_config]

lemma configNav_skip (inp : TickInput) (s : LoopState)
    (h : hatRead inp = s.prevHat ∨ ¬ inp.now - s.lastHatTime > 0.18) :
    configNav inp s = (s, []) := by
  simp only [configNav]
  rw [if_neg]
  rintro ⟨h1, h2⟩
  rcases h with h | h
  · exact h1 h
  · exact h h2

lemma configNav_lastHatTime_cases (inp : TickInput) (s : LoopState) :
    configNav inp s = (s, []) ∨
    (hatRead inp ≠ s.prevHat ∧ inp.now - s.lastHatTime > 0.18 ∧
      (configNav inp s).1.lastHatTime = inp.now) := by
  by_cases h : hatRead inp ≠ s.prevHat ∧ inp.now - s.lastHatTime > 0.18
  · refine Or.inr ⟨h.1, h.2, ?_⟩
    simp only [configNav]
    rw [if_pos h]
    split_ifs <;> rfl
  · rw [not_and_or, not_not] at h
    exact Or.inl (configNav_skip inp s h)

lemma configTick_args (inp : TickInput) (s : LoopState) :
    (configTick inp s).1.args = (configNav inp s).1.args := by
  simp only [configTick]
  split_ifs <;> rfl

lemma configTick_sel (inp : TickInput) (s : LoopState) :
    (configTick inp s).1.sel = (configNav inp s).1.sel := by
  simp only [configTick]
  split_ifs <;> rfl

lemma configTick_lastHatTime (inp : TickInput) (s : LoopState) :
    (configTick inp s).1.lastHatTime = (configNav inp s).1.lastHatTime := by
  simp only [configTick]
  split_ifs <;> rfl

lemma configTick_vx (inp : TickInput) (s : LoopState) :
    (configTick inp s).1.vx = s.vx := by
  simp only [configTick]
  split_ifs <;> simp [configNav_vx]

lemma configTick_vy (inp : TickInput) (s : LoopState) :
    (configTick inp s).1.vy = s.vy := by
  simp only [configTick]
  split_ifs <;> simp [configNav_vy]

lemma configTick_mouseActive (inp : TickInput) (s : LoopState) :
    (configTick inp s).1.mouseActive = s.mouseActive := by
  simp only [configTick]
  split_ifs <;> simp [configNav_mouseActive]

lemma configTick_dragging (inp : TickInput) (s : LoopState) :
    (configTick inp s).1.dragging = s.dragging := by
  simp only [configTick]
  split_ifs <;> simp [configNav_dragging]

/-- When the `"save"` level is down and its stored edge state is clear, the
CONFIG branch fires the save edge: the file write is attempted and the mode
unconditionally returns to NORMAL. -/
lemma configTick_save_fires (inp : TickInput) (s : LoopState)
    (hsave : btnRead inp s.args.btn_save_config = true)
    (hwas : s.btnState CId.save = false) :
    (configTick inp s).1.configMode = false ∧
    Action.saveFile ∈ (configTick inp s).2 := by
  simp only [configTick]
  rw [configNav_btnState, configNav_btn_save_config, hsave, edge_fire_of_false hwas]
  simp

/-- When the `"save"` level is up, the save edge cannot fire and the CONFIG
branch leaves the mode alone. -/
lemma configTick_no_save (inp : TickInput) (s : LoopState)
    (hsave : btnRead inp s.args.btn_save_config = false) :
    (configTick inp s).1.configMode = s.configMode := by
  simp only [configTick]
  rw [configNav_btnState, configNav_btn_save_config, hsave, edge_level_false]
  simp [configNav_configMode]

/-- Dispatch: a tick in CONFIG mode on which the `"cfg"` level is up stays on
the CONFIG branch, with the `"cfg"` stored state cleared. -/
lemma tick_eq_config (inp : TickInput) (s : LoopState) (hc : s.configMode = true)
    (h : btnRead inp s.args.btn_enter_config = false) :
    tick inp s =
      ({ (configTick inp { s with btnState := Function.update s.btnState CId.cfg false }).1
          with prevHat := hatRead inp },
        (configTick inp { s with btnState := Function.update s.btnState CId.cfg false }).2) := by
  unfold tick
  rw [h, edge_level_false]
  simp [hc]

/-- Dispatch: a tick in NORMAL mode on which the `"cfg"` level is up stays on
the NORMAL branch, with the `"cfg"` stored state cleared. -/
lemma tick_eq_normal (inp : TickInput) (s : LoopState) (hc : s.configMode = false)
    (h : btnRead inp s.args.btn_enter_config = false) :
    tick inp s =
      ({ (normalTick inp { s with btnState := Function.update s.btnState CId.cfg false }).1
          with prevHat := hatRead inp },
        (normalTick inp { s with btnState := Function.update s.btnState CId.cfg false }).2) := by
  unfold tick
  rw [h, edge_level_false]
  simp [hc]

/-- Dispatch: a rising `"cfg"` edge in NORMAL mode enters CONFIG mode on the
same tick. -/
lemma tick_eq_entry (inp : TickInput) (s : LoopState) (hc : s.configMode = false)
    (h : btnRead inp s.args.btn_enter_config = true)
    (hw : s.btnState CId.cfg = false) :
    tick inp s =
      ({ (configTick inp { s with
            btnState := Function.update s.btnState CId.cfg true
            configMode := true }).1 with prevHat := hatRead inp },
        Action.logMsg "CONFIG MODE" ::
          (configTick inp { s with
            btnState := Function.update s.btnState CId.cfg true
            configMode := true }).2) := by
  unfold tick
  rw [h, edge_fire_of_false hw]
  simp [hc]

/-- Dispatch: a rising `"cfg"` edge in CONFIG mode returns to NORMAL mode on
the same tick, and the NORMAL branch runs on that very tick. -/
lemma tick_eq_exit (inp : TickInput) (s : LoopState) (hc : s.configMode = true)
    (h : btnRead inp s.args.btn_enter_config = true)
    (hw : s.btnState CId.cfg = false) :
    tick inp s =
      ({ (normalTick inp { s with
            btnState := Function.update s.btnState CId.cfg true
            configMode := false }).1 with prevHat := hatRead inp },
        Action.logMsg "NORMAL MODE" ::
          (normalTick inp { s with
            btnState := Function.update s.btnState CId.cfg true
            configMode := false }).2) := by
  unfold tick
  rw [h, edge_fire_of_false hw]
  simp [hc]

/-- C3: while in CONFIG mode (and with no simultaneous toggle edge), a rising
edge of the save control attempts the file write and transitions the mode
back to NORMAL on that same tick, whether the external save succeeds or
fails — the oracle bit `saveOk` has no influence on the transition. -/
theorem c3_save_edge_always_returns_to_normal (inp : TickInput) (s : LoopState)
    (hc : s.configMode = true)
    (henter : btnRead inp s.args.btn_enter_config = false)
    (hsave : btnRead inp s.args.btn_save_config = true)
    (hwas : s.btnState CId.save = false) :
    (tick { inp with saveOk := true } s).1.configMode = false ∧
    (tick { inp with saveOk := false } s).1.configMode = false ∧
    Action.saveFile ∈ (tick inp s).2 := by
  have key : ∀ i2 : TickInput, i2.connected = inp.connected →
      i2.buttons = inp.buttons →
      (tick i2 s).1.configMode = false ∧ Action.saveFile ∈ (tick i2 s).2 := by
    intro i2 hcn hbt
    have henter2 : btnRead i2 s.args.btn_enter_config = false := by
      rw [btnRead, hcn, hbt]
      exact henter
    have hsave2 : btnRead i2
        ({ s with btnState := Function.update s.btnState CId.cfg false } :
          LoopState).args.btn_save_config = true := by
      show btnRead i2 s.args.btn_save_config = true
      rw [btnRead, hcn, hbt]
      exact hsave
    have h2 : ({ s with btnState := Function.update s.btnState CId.cfg false } :
        LoopState).btnState CId.save = false := by
      show Function.update s.btnState CId.cfg false CId.save = false
      rw [Function.update_noteq (by decide : CId.save ≠ CId.cfg)]
      exact hwas
    rw [tick_eq_config i2 s hc henter2]
    exact ⟨(configTick_save_fires i2 _ hsave2 h2).1,
      (configTick_save_fires i2 _ hsave2 h2).2⟩
  exact ⟨(key { inp with saveOk := true } rfl rfl).1,
    (key { inp with saveOk := false } rfl rfl).1,
    (key inp rfl rfl).2⟩

/-- C3 witness: a concrete CONFIG-mode state with the save button newly
pressed returns to NORMAL even when the save fails. -/
theorem c3_save_edge_always_returns_to_normal_witness :
    (tick { connected := true, axes := fun _ => 0, buttons := fun i => i = 9,
            hat := (0, 0), now := 1, saveOk := false }
        { initState DEFAULT_PARAMS with configMode := true }).1.configMode = false := by
  have h := c3_save_edge_always_returns_to_normal
    { connected := true, axes := fun _ => 0, buttons := fun i => i = 9,
      hat := (0, 0), now := 1, saveOk := false }
    { initState DEFAULT_PARAMS with configMode := true }
    rfl (by decide) (by decide) rfl
  exact h.2.1

/-! ### NORMAL-branch preservation lemmas -/

lemma motionTick_args (inp : TickInput) (s : LoopState) :
    (motionTick inp s).1.args = s.args := rfl

lemma motionTick_sel (inp : TickInput) (s : LoopState) :
    (motionTick inp s).1.sel = s.sel := rfl

lemma motionTick_lastHatTime (inp : TickInput) (s : LoopState) :
    (motionTick inp s).1.lastHatTime = s.lastHatTime := rfl

lemma motionTick_configMode (inp : TickInput) (s : LoopState) :
    (motionTick inp s).1.configMode = s.configMode := rfl

lemma motionTick_mouseActive (inp : TickInput) (s : LoopState) :
    (motionTick inp s).1.mouseActive = s.mouseActive := rfl

lemma motionTick_btnState (inp : TickInput) (s : LoopState) :
    (motionTick inp s).1.btnState = s.btnState := rfl

lemma normalTick_sel (inp : TickInput) (s : LoopState) :
    (normalTick inp s).1.sel = s.sel := by
  simp only [normalTick]
  split_ifs <;> rfl

lemma normalTick_args (inp : TickInput) (s : LoopState) :
    (normalTick inp s).1.args = s.args := by
  simp only [normalTick]
  split_ifs <;> rfl

lemma normalTick_lastHatTime (inp : TickInput) (s : LoopState) :
    (normalTick inp s).1.lastHatTime = s.lastHatTime := by
  simp only [normalTick]
  split_ifs <;> rfl

lemma normalTick_configMode (inp : TickInput) (s : LoopState) :
    (normalTick inp s).1.configMode = s.configMode := by
  simp only [normalTick]
  split_ifs <;> rfl

/-- In NORMAL mode a changed pad tuple that maps to a key code is acted on
immediately — no time gate is consulted. -/
lemma normalTick_keyTap (inp : TickInput) (s : LoopState) (c : ℕ)
    (h1 : hatRead inp ≠ s.prevHat) (h2 : cmds (hatRead inp) = some c) :
    Action.keyTap c ∈ (normalTick inp s).2 := by
  simp only [normalTick, if_pos h1, h2, hatActs]
  split_ifs <;> simp [List.mem_append]

/-- C4: pad handling is debounced only in CONFIG mode.  In CONFIG mode (no
toggle edge), if less than the 0.18 s debounce interval has elapsed since
the last accepted pad transition, the tick changes neither the selection nor
any parameter nor the acceptance clock; and any tick that does change one of
them saw a pad change at least 0.18 s after the last accepted one and stamps
the acceptance clock with the current time — so two accepted CONFIG pad
transitions are never closer than the debounce interval.  In NORMAL mode the
selection, parameters and acceptance clock are untouched and a changed pad
tuple emits its key tap immediately, with no condition on the clock. -/
theorem c4_debounce_only_in_config (inp : TickInput) (s : LoopState) (c : ℕ) :
    (s.configMode = true → btnRead inp s.args.btn_enter_config = false →
      (¬ inp.now - s.lastHatTime > 0.18 →
        (tick inp s).1.sel = s.sel ∧ (tick inp s).1.args = s.args ∧
        (tick inp s).1.lastHatTime = s.lastHatTime) ∧
      ((tick inp s).1.sel ≠ s.sel ∨ (tick inp s).1.args ≠ s.args ∨
          (tick inp s).1.lastHatTime ≠ s.lastHatTime →
        hatRead inp ≠ s.prevHat ∧ inp.now - s.lastHatTime > 0.18 ∧
        (tick inp s).1.lastHatTime = inp.now)) ∧
    (s.configMode = false → btnRead inp s.args.btn_enter_config = false →
      (tick inp s).1.sel = s.sel ∧ (tick inp s).1.args = s.args ∧
      (tick inp s).1.lastHatTime = s.lastHatTime ∧
      (hatRead inp ≠ s.prevHat → cmds (hatRead inp) = some c →
        Action.keyTap c ∈ (tick inp s).2)) := by
  constructor
  · intro hc h
    rw [tick_eq_config inp s hc h]
    dsimp only
    rw [configTick_sel, configTick_args, configTick_lastHatTime]
    rcases configNav_lastHatTime_cases inp
        { s with btnState := Function.update s.btnState CId.cfg false } with
      hskip | ⟨hne, hgap, hlast⟩
    · rw [hskip]
      exact ⟨fun _ => ⟨rfl, rfl, rfl⟩,
        fun h' => by rcases h' with h' | h' | h' <;> exact absurd rfl h'⟩
    · exact ⟨fun hng => absurd hgap hng, fun _ => ⟨hne, hgap, hlast⟩⟩
  · intro hc h
    rw [tick_eq_normal inp s hc h]
    dsimp only
    exact ⟨normalTick_sel inp _, normalTick_args inp _, normalTick_lastHatTime inp _,
      fun h1 h2 => normalTick_keyTap inp _ c h1 h2⟩

/-- C4 witness: a CONFIG-mode pad change only 0.1 s after the last accepted
one changes nothing, while the same pad change in NORMAL mode taps its key
immediately at the same clock reading. -/
theorem c4_debounce_only_in_config_witness :
    (¬ (0.1 : ℚ) - 0 > 0.18) ∧
    (tick { connected := true, axes := fun _ => 0, buttons := fun _ => false,
            hat := (0, 1), now := 0.1, saveOk := false }
        { initState DEFAULT_PARAMS with configMode := true }).1.sel = 0 ∧
    Action.keyTap 115 ∈
      (tick { connected := true, axes := fun _ => 0, buttons := fun _ => false,
              hat := (0, 1), now := 0.1, saveOk := false }
          { initState DEFAULT_PARAMS with mouseActive := false }).2 := by
  refine ⟨by norm_num, ?_, ?_⟩
  · exact (((c4_debounce_only_in_config
      { connected := true, axes := fun _ => 0, buttons := fun _ => false,
        hat := (0, 1), now := 0.1, saveOk := false }
      { initState DEFAULT_PARAMS with configMode := true } 115).1 rfl rfl).1
      (by norm_num [initState])).1
  · exact ((c4_debounce_only_in_config
      { connected := true, axes := fun _ => 0, buttons := fun _ => false,
        hat := (0, 1), now := 0.1, saveOk := false }
      { initState DEFAULT_PARAMS with mouseActive := false } 115).2 rfl rfl).2.2.2
      (by decide) (by decide)

/-! ### Drag begin/end handling -/

lemma normalTick_drag_begin (inp : TickInput) (s : LoopState)
    (hstop : btnRead inp s.args.btn_stop_mouse = false)
    (hres : btnRead inp s.args.btn_resume_mouse = false)
    (hact : s.mouseActive = true) (hconn : inp.connected = true)
    (hp : btnRead inp s.args.btn_left_drag = true) (hd : s.dragging = false) :
    (normalTick inp s).1.dragging = true ∧
    Action.click 0x40 ∈ (normalTick inp s).2 := by
  simp only [normalTick, motionTick, hstop, hres, hact, hconn, hp, hd,
    edge_level_false]
  simp [List.mem_append]

lemma normalTick_drag_end (inp : TickInput) (s : LoopState)
    (hstop : btnRead inp s.args.btn_stop_mouse = false)
    (hres : btnRead inp s.args.btn_resume_mouse = false)
    (hact : s.mouseActive = true) (hconn : inp.connected = true)
    (hp : btnRead inp s.args.btn_left_drag = false) (hd : s.dragging = true) :
    (normalTick inp s).1.dragging = false ∧
    Action.click 0xB0 ∈ (normalTick inp s).2 := by
  simp only [normalTick, motionTick, hstop, hres, hact, hconn, hp, hd,
    edge_level_false]
  simp [List.mem_append]

lemma click_notin_base (n : ℕ) (c1 c2 c3 c4 c5 : Prop) [Decidable c1]
    [Decidable c2] [Decidable c3] [Decidable c4] [Decidable c5] (o : Option ℕ) :
    Action.click n ∉
      (if c1 then [Action.logMsg "MOUSE STOPPED"] else []) ++
        (if c2 then [Action.logMsg "MOUSE RESUMED"] else []) ++
        (if c3 then [Action.keyTap 113, Action.logMsg "MUTE"] else []) ++
        (if c4 then [Action.keyTap 164, Action.logMsg "PLAY/PAUSE"] else []) ++
        (if c5 then hatActs o else []) := by
  split_ifs <;> cases o <;> simp [hatActs]

/-- The NORMAL branch in one piece: some updated edge states `bs'`, an
updated motion-active flag `ma` and a pre-motion action list `base` (which
contains no click action) such that the tick is the motion block appended
after `base` when `ma && connected` holds and just `base` otherwise; and
`ma` equals the incoming flag when neither stop nor resume is pressed. -/
lemma normalTick_eq (inp : TickInput) (s : LoopState) :
    ∃ bs' : CId → Bool, ∃ ma : Bool, ∃ base : List Action,
      (∀ n : ℕ, Action.click n ∉ base) ∧
      normalTick inp s =
        (if ma && inp.connected then
          ((motionTick inp { s with btnState := bs', mouseActive := ma }).1,
            base ++ (motionTick inp { s with btnState := bs', mouseActive := ma }).2)
         else ({ s with btnState := bs', mouseActive := ma }, base)) ∧
      (btnRead inp s.args.btn_stop_mouse = false →
        btnRead inp s.args.btn_resume_mouse = false → ma = s.mouseActive) := by
  refine ⟨_, _, _, fun n => click_notin_base n _ _ _ _ _ _, rfl, ?_⟩
  intro hstop hres
  rw [hstop, hres, edge_level_false, edge_level_false]
  rfl

lemma motionTick_no_begin (inp : TickInput) (s : LoopState)
    (hd : s.dragging = true) :
    Action.click 0x40 ∉ (motionTick inp s).2 := by
  simp only [motionTick, hd]
  split_ifs <;> simp_all

lemma motionTick_no_end (inp : TickInput) (s : LoopState)
    (hd : s.dragging = false) :
    Action.click 0xB0 ∉ (motionTick inp s).2 := by
  simp only [motionTick, hd]
  split_ifs <;> simp_all

lemma normalTick_no_begin (inp : TickInput) (s : LoopState)
    (hd : s.dragging = true) :
    Action.click 0x40 ∉ (normalTick inp s).2 := by
  obtain ⟨bs', ma, base, hbase, heq, -⟩ := normalTick_eq inp s
  rw [heq]
  split
  · intro hmem
    rcases List.mem_append.1 hmem with hb | hm
    · exact hbase _ hb
    · exact motionTick_no_begin inp _ hd hm
  · intro hmem
    exact hbase _ hmem

lemma normalTick_no_end (inp : TickInput) (s : LoopState)
    (hd : s.dragging = false) :
    Action.click 0xB0 ∉ (normalTick inp s).2 := by
  obtain ⟨bs', ma, base, hbase, heq, -⟩ := normalTick_eq inp s
  rw [heq]
  split
  · intro hmem
    rcases List.mem_append.1 hmem with hb | hm
    · exact hbase _ hb
    · exact motionTick_no_end inp _ hd hm
  · intro hmem
    exact hbase _ hmem

lemma motionTick_drag_steady (inp : TickInput) (s : LoopState)
    (h : btnRead inp s.args.btn_left_drag = s.dragging) :
    (motionTick inp s).1.dragging = s.dragging := by
  simp only [motionTick, h]
  cases hd : s.dragging <;> simp [hd]

lemma normalTick_drag_steady (inp : TickInput) (s : LoopState)
    (h : btnRead inp s.args.btn_left_drag = s.dragging) :
    (normalTick inp s).1.dragging = s.dragging := by
  obtain ⟨bs', ma, base, -, heq, -⟩ := normalTick_eq inp s
  rw [heq]
  split
  · exact motionTick_drag_steady inp _ h
  · rfl

/-- C8 counterexample: the claim omits the `mouse_active and joy.connected`
guard around the drag block.  In NORMAL mode, with the device connected, the
drag button pressed and the dragging flag clear, a tick with the
motion-active flag off emits no drag-begin click and leaves the flag clear,
although the claim requires a begin action on every such tick. -/
theorem c8_counterexample :
    ({ initState DEFAULT_PARAMS with mouseActive := false } :
        LoopState).configMode = false ∧
    btnRead { connected := true, axes := fun _ => 0, buttons := fun i => i = 0,
              hat := (0, 0), now := 1, saveOk := false }
      ({ initState DEFAULT_PARAMS with mouseActive := false } :
        LoopState).args.btn_left_drag = true ∧
    ({ initState DEFAULT_PARAMS with mouseActive := false } :
        LoopState).dragging = false ∧
    (tick { connected := true, axes := fun _ => 0, buttons := fun i => i = 0,
            hat := (0, 0), now := 1, saveOk := false }
        { initState DEFAULT_PARAMS with mouseActive := false }).1.dragging = false ∧
    Action.click 0x40 ∉
      (tick { connected := true, axes := fun _ => 0, buttons := fun i => i = 0,
              hat := (0, 0), now := 1, saveOk := false }
          { initState DEFAULT_PARAMS with mouseActive := false }).2 := by
  decide

/-- C8 (amended): in NORMAL mode, provided motion is active and the device
is connected (the drag block sits inside the `mouse_active and
joy.connected` guard), a pressed drag level with the flag clear emits
drag-begin and sets the flag; a released level with the flag set emits
drag-end and clears it; while the flag is set no begin is ever emitted and
while the level matches the flag the flag is unchanged, so neither action
repeats across held or released ticks. -/
theorem c8_drag_level_guard (inp : TickInput) (s : LoopState)
    (hc : s.configMode = false)
    (hcfg : btnRead inp s.args.btn_enter_config = false)
    (hstop : btnRead inp s.args.btn_stop_mouse = false)
    (hres : btnRead inp s.args.btn_resume_mouse = false)
    (hact : s.mouseActive = true) (hconn : inp.connected = true) :
    (btnRead inp s.args.btn_left_drag = true → s.dragging = false →
      (tick inp s).1.dragging = true ∧ Action.click 0x40 ∈ (tick inp s).2) ∧
    (btnRead inp s.args.btn_left_drag = false → s.dragging = true →
      (tick inp s).1.dragging = false ∧ Action.click 0xB0 ∈ (tick inp s).2) ∧
    (s.dragging = true → Action.click 0x40 ∉ (tick inp s).2) ∧
    (s.dragging = false → Action.click 0xB0 ∉ (tick inp s).2) ∧
    (btnRead inp s.args.btn_left_drag = s.dragging →
      (tick inp s).1.dragging = s.dragging) := by
  rw [tick_eq_normal inp s hc hcfg]
  dsimp only
  refine ⟨?_, ?_, ?_, ?_, ?_⟩
  · intro hp hd
    exact normalTick_drag_begin inp _ hstop hres hact hconn hp hd
  · intro hp hd
    exact normalTick_drag_end inp _ hstop hres hact hconn hp hd
  · intro hd
    exact normalTick_no_begin inp _ hd
  · intro hd
    exact normalTick_no_end inp _ hd
  · intro h
    exact normalTick_drag_steady inp _ h

/-- C8 witness: with motion active, a fresh drag press on a concrete tick
emits the begin click and sets the flag. -/
theorem c8_drag_level_guard_witness :
    ((tick { connected := true, axes := fun _ => 0, buttons := fun i => i = 0,
             hat := (0, 0), now := 1, saveOk := false }
        (initState DEFAULT_PARAMS)).1.dragging = true ∧
      Action.click 0x40 ∈
        (tick { connected := true, axes := fun _ => 0, buttons := fun i => i = 0,
                hat := (0, 0), now := 1, saveOk := false }
            (initState DEFAULT_PARAMS)).2) := by
  exact (c8_drag_level_guard
    { connected := true, axes := fun _ => 0, buttons := fun i => i = 0,
      hat := (0, 0), now := 1, saveOk := false }
    (initState DEFAULT_PARAMS) rfl (by decide) (by decide) (by decide) rfl rfl).1
    (by decide) rfl

/-! ### One-shot edge states are frozen while in CONFIG mode -/

lemma configTick_btnState_other (inp : TickInput) (s : LoopState) (k : CId)
    (hk : k ≠ CId.save) :
    (configTick inp s).1.btnState k = s.btnState k := by
  simp only [configTick]
  split_ifs <;>
    exact (edge_other_key _ _ _ _ hk).trans (congrFun (configNav_btnState inp s) k)

/-- C10: while the mode is CONFIG (and the toggle level is up), a tick
updates only the `"cfg"` and `"save"` stored edge states — the stop, resume,
mute and play states are frozen; consequently, in the concrete three-tick
trace below, the stop button is unpressed when CONFIG is entered, is pressed
and held during CONFIG without its stored state being touched, and its
one-shot action fires on the very tick that returns to NORMAL, even though
the physical press began while in CONFIG. -/
theorem c10_oneshot_edges_frozen_in_config (inp : TickInput) (s : LoopState)
    (k : CId) (hc : s.configMode = true)
    (h : btnRead inp s.args.btn_enter_config = false)
    (hk1 : k ≠ CId.cfg) (hk2 : k ≠ CId.save) :
    (tick inp s).1.btnState k = s.btnState k ∧
    ((run [{ connected := true, axes := fun _ => 0, buttons := fun i => i = 10,
             hat := (0, 0), now := 1, saveOk := false },
           { connected := true, axes := fun _ => 0, buttons := fun i => i = 6,
             hat := (0, 0), now := 2, saveOk := false }]
        (initState DEFAULT_PARAMS)).configMode = true ∧
      (run [{ connected := true, axes := fun _ => 0, buttons := fun i => i = 10,
              hat := (0, 0), now := 1, saveOk := false },
            { connected := true, axes := fun _ => 0, buttons := fun i => i = 6,
              hat := (0, 0), now := 2, saveOk := false }]
          (initState DEFAULT_PARAMS)).btnState CId.stop = false ∧
      (run [{ connected := true, axes := fun _ => 0, buttons := fun i => i = 10,
              hat := (0, 0), now := 1, saveOk := false },
            { connected := true, axes := fun _ => 0, buttons := fun i => i = 6,
              hat := (0, 0), now := 2, saveOk := false }]
          (initState DEFAULT_PARAMS)).mouseActive = true ∧
      (tick { connected := true, axes := fun _ => 0,
              buttons := fun i => i = 10 || i = 6,
              hat := (0, 0), now := 3, saveOk := false }
          (run [{ connected := true, axes := fun _ => 0, buttons := fun i => i = 10,
                  hat := (0, 0), now := 1, saveOk := false },
                { connected := true, axes := fun _ => 0, buttons := fun i => i = 6,
                  hat := (0, 0), now := 2, saveOk := false }]
              (initState DEFAULT_PARAMS))).1.configMode = false ∧
      (tick { connected := true, axes := fun _ => 0,
              buttons := fun i => i = 10 || i = 6,
              hat := (0, 0), now := 3, saveOk := false }
          (run [{ connected := true, axes := fun _ => 0, buttons := fun i => i = 10,
                  hat := (0, 0), now := 1, saveOk := false },
                { connected := true, axes := fun _ => 0, buttons := fun i => i = 6,
                  hat := (0, 0), now := 2, saveOk := false }]
              (initState DEFAULT_PARAMS))).1.mouseActive = false ∧
      Action.logMsg "MOUSE STOPPED" ∈
        (tick { connected := true, axes := fun _ => 0,
                buttons := fun i => i = 10 || i = 6,
                hat := (0, 0), now := 3, saveOk := false }
            (run [{ connected := true, axes := fun _ => 0, buttons := fun i => i = 10,
                    hat := (0, 0), now := 1, saveOk := false },
                  { connected := true, axes := fun _ => 0, buttons := fun i => i = 6,
                    hat := (0, 0), now := 2, saveOk := false }]
                (initState DEFAULT_PARAMS))).2) := by
  constructor
  · rw [tick_eq_config inp s hc h]
    dsimp only
    refine (configTick_btnState_other inp _ k hk2).trans ?_
    show Function.update s.btnState CId.cfg false k = s.btnState k
    exact Function.update_noteq hk1 _ _
  · decide

/-- C10 witness: in a concrete CONFIG-mode tick the stored stop-edge state
is untouched. -/
theorem c10_oneshot_edges_frozen_in_config_witness :
    (tick { connected := true, axes := fun _ => 0, buttons := fun i => i = 6,
            hat := (0, 0), now := 2, saveOk := false }
        { initState DEFAULT_PARAMS with configMode := true }).1.btnState CId.stop =
      ({ initState DEFAULT_PARAMS with configMode := true } :
        LoopState).btnState CId.stop :=
  (c10_oneshot_edges_frozen_in_config
    { connected := true, axes := fun _ => 0, buttons := fun i => i = 6,
      hat := (0, 0), now := 2, saveOk := false }
    { initState DEFAULT_PARAMS with configMode := true }
    CId.stop rfl (by decide) (by decide) (by decide)).1

/-! ### CONFIG round trips leave the NORMAL-mode state alone -/

/-- A CONFIG-mode tick with the toggle and save levels up and an unchanged
pad tuple only clears the `"cfg"` and `"save"` stored edge states. -/
lemma tick_config_neutral (inp : TickInput) (s : LoopState)
    (hc : s.configMode = true)
    (henter : btnRead inp s.args.btn_enter_config = false)
    (hsave : btnRead inp s.args.btn_save_config = false)
    (hhat : hatRead inp = s.prevHat) :
    (tick inp s).1 = { s with
      btnState := Function.update (Function.update s.btnState CId.cfg false) CId.save false } := by
  rw [tick_eq_config inp s hc henter]
  simp only [configTick]
  rw [configNav_skip inp
    { s with btnState := Function.update s.btnState CId.cfg false } (Or.inl hhat)]
  dsimp only
  rw [hsave, edge_level_false]
  dsimp only
  simp only [Bool.false_eq_true, if_false]
  rw [hhat]

/-- The CONFIG-entry tick with the save level up and an unchanged pad tuple
flips the mode flag, marks the `"cfg"` state pressed and clears the
`"save"` state, touching nothing else. -/
lemma tick_entry_neutral (inp : TickInput) (s : LoopState)
    (hc : s.configMode = false) (hw : s.btnState CId.cfg = false)
    (henter : btnRead inp s.args.btn_enter_config = true)
    (hhat : hatRead inp = s.prevHat)
    (hsave : btnRead inp s.args.btn_save_config = false) :
    (tick inp s).1 = { s with
      configMode := true
      btnState := Function.update (Function.update s.btnState CId.cfg true) CId.save false } := by
  rw [tick_eq_entry inp s hc henter hw]
  simp only [configTick]
  rw [configNav_skip inp
    { s with
      btnState := Function.update s.btnState CId.cfg true
      configMode := true } (Or.inl hhat)]
  dsimp only
  rw [hsave, edge_level_false]
  dsimp only
  simp only [Bool.false_eq_true, if_false]
  rw [hhat]

/-- Staying in CONFIG over a run of neutral inputs only rewrites the
`"cfg"`/`"save"` stored edge states; once at least one such tick has
happened the `"cfg"` state is clear. -/
lemma run_config_neutral (s : LoopState) (mids : List TickInput)
    (hc : s.configMode = true)
    (hm : ∀ m ∈ mids, btnRead m s.args.btn_enter_config = false ∧
      btnRead m s.args.btn_save_config = false ∧ hatRead m = s.prevHat) :
    ∃ B : CId → Bool,
      run mids s = { s with btnState := B } ∧
      (mids ≠ [] → B CId.cfg = false) := by
  induction mids generalizing s with
  | nil => exact ⟨s.btnState, rfl, fun h => absurd rfl h⟩
  | cons m ms ih =>
      obtain ⟨hm1, hm2, hm3⟩ := hm m (List.mem_cons_self m ms)
      have hstep := tick_config_neutral m s hc hm1 hm2 hm3
      have hrunEq : run (m :: ms) s = run ms (tick m s).1 := rfl
      rw [hrunEq, hstep]
      obtain ⟨B, hB, hBcfg⟩ := ih
        { s with btnState :=
            Function.update (Function.update s.btnState CId.cfg false) CId.save false }
        hc (fun m' hm' => hm m' (List.mem_cons_of_mem m hm'))
      refine ⟨B, hB, fun _ => ?_⟩
      by_cases hms : ms = []
      · subst hms
        have : B = Function.update (Function.update s.btnState CId.cfg false)
            CId.save false := by
          have := hB
          simp only [run, List.foldl_nil] at this
          exact congrArg LoopState.btnState this.symm
        rw [this, Function.update_noteq (by decide), Function.update_same]
      · exact hBcfg hms

/-- The NORMAL branch with the stop and resume levels up: the motion-active
flag, mode flag and parameters are unchanged; the velocity is unchanged when
the motion guard is off and is exactly one conditioned integration step when
it is on. -/
lemma normalTick_exit_facts (x : TickInput) (t : LoopState)
    (hx2 : btnRead x t.args.btn_stop_mouse = false)
    (hx3 : btnRead x t.args.btn_resume_mouse = false) :
    (normalTick x t).1.mouseActive = t.mouseActive ∧
    (normalTick x t).1.configMode = t.configMode ∧
    (normalTick x t).1.args = t.args ∧
    ((t.mouseActive && x.connected) = false →
      (normalTick x t).1.vx = t.vx ∧ (normalTick x t).1.vy = t.vy) ∧
    ((t.mouseActive && x.connected) = true →
      ((normalTick x t).1.vx, (normalTick x t).1.vy) =
        integrate
          ((condition (axisRead x t.args.mouse_x_axis)
            (axisRead x t.args.mouse_y_axis) t.args.deadzone).1 : ℝ)
          ((condition (axisRead x t.args.mouse_x_axis)
            (axisRead x t.args.mouse_y_axis) t.args.deadzone).2 : ℝ)
          (t.args.acceleration : ℝ) (t.args.friction : ℝ)
          (t.args.max_velocity : ℝ) t.vx t.vy) := by
  obtain ⟨bs2, ma, base, -, heq, hma⟩ := normalTick_eq x t
  have hma' := hma hx2 hx3
  subst hma'
  rw [heq]
  cases hg : t.mouseActive && x.connected with
  | false =>
      exact ⟨rfl, rfl, rfl, fun _ => ⟨rfl, rfl⟩,
        fun hcontra => absurd hcontra (by simp)⟩
  | true =>
      exact ⟨rfl, rfl, rfl, fun hcontra => absurd hcontra (by simp), fun _ => rfl⟩

/-- C7 (amended): entering CONFIG on a rising toggle edge, staying there
over any nonempty run of neutral ticks (toggle and save levels up, pad
unchanged) and leaving on a second rising toggle edge (with the stop and
resume levels up) keeps the mode bookkeeping pure: throughout CONFIG the
velocity, motion-active flag and all parameters equal their pre-toggle
values, and the exit tick restores NORMAL mode with the motion-active flag
and parameters still equal; the velocity is unchanged by the transitions
themselves, but on the exit tick the resumed NORMAL motion block (when the
motion guard holds) applies one ordinary conditioned integration step to the
pre-toggle velocity. -/
theorem c7_config_round_trip (s0 : LoopState) (e x : TickInput)
    (mids : List TickInput)
    (h0 : s0.configMode = false) (hw : s0.btnState CId.cfg = false)
    (he1 : btnRead e s0.args.btn_enter_config = true)
    (he2 : hatRead e = s0.prevHat)
    (he3 : btnRead e s0.args.btn_save_config = false)
    (hm : ∀ m ∈ mids, btnRead m s0.args.btn_enter_config = false ∧
      btnRead m s0.args.btn_save_config = false ∧ hatRead m = s0.prevHat)
    (hne : mids ≠ [])
    (hx1 : btnRead x s0.args.btn_enter_config = true)
    (hx2 : btnRead x s0.args.btn_stop_mouse = false)
    (hx3 : btnRead x s0.args.btn_resume_mouse = false) :
    (run (e :: mids) s0).configMode = true ∧
    (run (e :: mids) s0).vx = s0.vx ∧ (run (e :: mids) s0).vy = s0.vy ∧
    (run (e :: mids) s0).mouseActive = s0.mouseActive ∧
    (run (e :: mids) s0).args = s0.args ∧
    (tick x (run (e :: mids) s0)).1.configMode = false ∧
    (tick x (run (e :: mids) s0)).1.mouseActive = s0.mouseActive ∧
    (tick x (run (e :: mids) s0)).1.args = s0.args ∧
    ((s0.mouseActive && x.connected) = false →
      (tick x (run (e :: mids) s0)).1.vx = s0.vx ∧
      (tick x (run (e :: mids) s0)).1.vy = s0.vy) ∧
    ((s0.mouseActive && x.connected) = true →
      ((tick x (run (e :: mids) s0)).1.vx, (tick x (run (e :: mids) s0)).1.vy) =
        integrate
          ((condition (axisRead x s0.args.mouse_x_axis)
            (axisRead x s0.args.mouse_y_axis) s0.args.deadzone).1 : ℝ)
          ((condition (axisRead x s0.args.mouse_x_axis)
            (axisRead x s0.args.mouse_y_axis) s0.args.deadzone).2 : ℝ)
          (s0.args.acceleration : ℝ) (s0.args.friction : ℝ)
          (s0.args.max_velocity : ℝ) s0.vx s0.vy) := by
  have hentry := tick_entry_neutral e s0 h0 hw he1 he2 he3
  obtain ⟨B, hB, hBcfg⟩ := run_config_neutral
    { s0 with
      configMode := true
      btnState := Function.update (Function.update s0.btnState CId.cfg true) CId.save false }
    mids rfl hm
  have hsN : run (e :: mids) s0 = { s0 with configMode := true, btnState := B } := by
    show run mids (tick e s0).1 = _
    rw [hentry]
    exact hB
  have hexit := tick_eq_exit x
    { s0 with configMode := true, btnState := B } rfl hx1 (hBcfg hne)
  have hfacts := normalTick_exit_facts x
    { s0 with
      configMode := false
      btnState := Function.update B CId.cfg true } hx2 hx3
  rw [hsN]
  refine ⟨rfl, rfl, rfl, rfl, rfl, ?_, ?_, ?_, ?_, ?_⟩
  · rw [hexit]
    exact hfacts.2.1
  · rw [hexit]
    exact hfacts.1
  · rw [hexit]
    exact hfacts.2.2.1
  · intro hg
    rw [hexit]
    exact hfacts.2.2.2.1 hg
  · intro hg
    rw [hexit]
    exact hfacts.2.2.2.2 hg

/-- C7 witness for the amended round trip: with the motion-active flag off,
a concrete entry, one neutral CONFIG tick and an exit leave the mode back at
NORMAL with the velocity exactly as before the toggles. -/
theorem c7_config_round_trip_witness :
    (run [{ connected := true, axes := fun _ => 0, buttons := fun i => i = 10,
            hat := (0, 0), now := 1, saveOk := false },
          { connected := true, axes := fun _ => 0, buttons := fun _ => false,
            hat := (0, 0), now := 2, saveOk := false }]
        { initState DEFAULT_PARAMS with mouseActive := false }).configMode = true ∧
    (tick { connected := true, axes := fun _ => 0, buttons := fun i => i = 10,
            hat := (0, 0), now := 3, saveOk := false }
        (run [{ connected := true, axes := fun _ => 0, buttons := fun i => i = 10,
                hat := (0, 0), now := 1, saveOk := false },
              { connected := true, axes := fun _ => 0, buttons := fun _ => false,
                hat := (0, 0), now := 2, saveOk := false }]
            { initState DEFAULT_PARAMS with mouseActive := false })).1.configMode =
      false ∧
    (tick { connected := true, axes := fun _ => 0, buttons := fun i => i = 10,
            hat := (0, 0), now := 3, saveOk := false }
        (run [{ connected := true, axes := fun _ => 0, buttons := fun i => i = 10,
                hat := (0, 0), now := 1, saveOk := false },
              { connected := true, axes := fun _ => 0, buttons := fun _ => false,
                hat := (0, 0), now := 2, saveOk := false }]
            { initState DEFAULT_PARAMS with mouseActive := false })).1.vx =
      ({ initState DEFAULT_PARAMS with mouseActive := false } : LoopState).vx := by
  have h := c7_config_round_trip
    { initState DEFAULT_PARAMS with mouseActive := false }
    { connected := true, axes := fun _ => 0, buttons := fun i => i = 10,
      hat := (0, 0), now := 1, saveOk := false }
    { connected := true, axes := fun _ => 0, buttons := fun i => i = 10,
      hat := (0, 0), now := 3, saveOk := false }
    [{ connected := true, axes := fun _ => 0, buttons := fun _ => false,
       hat := (0, 0), now := 2, saveOk := false }]
    rfl rfl (by decide) (by decide) (by decide)
    (by
      intro m hmem
      simp only [List.mem_singleton] at hmem
      subst hmem
      exact ⟨by decide, by decide, by decide⟩)
    (by simp)
    (by decide) (by decide) (by decide)
  exact ⟨h.1, h.2.2.2.2.2.1, (h.2.2.2.2.2.2.2.2.1 rfl).1⟩

/-- Tick inputs of the C7 counterexample trace: a NORMAL motion tick with
the stick pushed halfway, the CONFIG-entry press, a neutral CONFIG tick with
the toggle released, and the CONFIG-exit press with the stick at rest. -/
def c7i1 : TickInput :=
  ⟨true, fun i => if i = 0 then 0.5 else 0, fun _ => false, (0, 0), 1, false⟩

/-- Second counterexample tick: the toggle button goes down. -/
def c7i2 : TickInput := ⟨true, fun _ => 0, fun i => i = 10, (0, 0), 2, false⟩

/-- Third counterexample tick: everything released, still in CONFIG. -/
def c7i3 : TickInput := ⟨true, fun _ => 0, fun _ => false, (0, 0), 3, false⟩

/-- Fourth counterexample tick: the toggle button goes down again. -/
def c7i4 : TickInput := ⟨true, fun _ => 0, fun i => i = 10, (0, 0), 4, false⟩

lemma integrate_push_eval :
    integrate ((condition 0.5 0 0.07).1 : ℝ) ((condition 0.5 0 0.07).2 : ℝ)
      ((10.0 : ℚ) : ℝ) ((0.6 : ℚ) : ℝ) ((13.0 : ℚ) : ℝ) 0 0 = (3, 0) := by
  have hx : (condition 0.5 0 0.07).1 = 0.5 := by
    norm_num [condition, abs_of_nonneg]
  have hy : (condition 0.5 0 0.07).2 = 0 := by
    norm_num [condition]
  rw [hx, hy]
  have ha : ((0 : ℝ) + ((0.5 : ℚ) : ℝ) * ((10.0 : ℚ) : ℝ)) * ((0.6 : ℚ) : ℝ) = 3 := by
    norm_num
  have hb : ((0 : ℝ) + ((0 : ℚ) : ℝ) * ((10.0 : ℚ) : ℝ)) * ((0.6 : ℚ) : ℝ) = 0 := by
    norm_num
  unfold integrate
  rw [ha, hb]
  rw [clampVel_of_le (by
    rw [show ((3 : ℝ) ^ 2 + 0 ^ 2) = 3 ^ 2 by norm_num,
      Real.sqrt_sq (by norm_num : (0 : ℝ) ≤ 3)]
    norm_num)]

lemma integrate_rest_eval :
    integrate ((condition 0 0 0.07).1 : ℝ) ((condition 0 0 0.07).2 : ℝ)
      ((10.0 : ℚ) : ℝ) ((0.6 : ℚ) : ℝ) ((13.0 : ℚ) : ℝ) 3 0 = (9 / 5, 0) := by
  have hx : (condition 0 0 0.07).1 = 0 := by norm_num [condition]
  have hy : (condition 0 0 0.07).2 = 0 := by norm_num [condition]
  rw [hx, hy]
  have ha : ((3 : ℝ) + ((0 : ℚ) : ℝ) * ((10.0 : ℚ) : ℝ)) * ((0.6 : ℚ) : ℝ) = 9 / 5 := by
    norm_num
  have hb : ((0 : ℝ) + ((0 : ℚ) : ℝ) * ((10.0 : ℚ) : ℝ)) * ((0.6 : ℚ) : ℝ) = 0 := by
    norm_num
  unfold integrate
  rw [ha, hb]
  rw [clampVel_of_le (by
    rw [show ((9 / 5 : ℝ) ^ 2 + 0 ^ 2) = (9 / 5) ^ 2 by norm_num,
      Real.sqrt_sq (by norm_num : (0 : ℝ) ≤ 9 / 5)]
    norm_num)]

lemma c7_s1_vx : (tick c7i1 (initState DEFAULT_PARAMS)).1.vx = 3 := by
  rw [tick_eq_normal c7i1 (initState DEFAULT_PARAMS) rfl rfl]
  dsimp only
  obtain ⟨bs2, ma, base, -, heq, hma⟩ := normalTick_eq c7i1
    { initState DEFAULT_PARAMS with
      btnState := Function.update (initState DEFAULT_PARAMS).btnState CId.cfg false }
  have hma' : ma = true := hma rfl rfl
  rw [heq, if_pos (show (ma && c7i1.connected) = true by simp [hma', c7i1])]
  show (integrate ((condition 0.5 0 0.07).1 : ℝ) ((condition 0.5 0 0.07).2 : ℝ)
    ((10.0 : ℚ) : ℝ) ((0.6 : ℚ) : ℝ) ((13.0 : ℚ) : ℝ) 0 0).1 = 3
  rw [integrate_push_eval]

lemma c7_s1_vy : (tick c7i1 (initState DEFAULT_PARAMS)).1.vy = 0 := by
  rw [tick_eq_normal c7i1 (initState DEFAULT_PARAMS) rfl rfl]
  dsimp only
  obtain ⟨bs2, ma, base, -, heq, hma⟩ := normalTick_eq c7i1
    { initState DEFAULT_PARAMS with
      btnState := Function.update (initState DEFAULT_PARAMS).btnState CId.cfg false }
  have hma' : ma = true := hma rfl rfl
  rw [heq, if_pos (show (ma && c7i1.connected) = true by simp [hma', c7i1])]
  show (integrate ((condition 0.5 0 0.07).1 : ℝ) ((condition 0.5 0 0.07).2 : ℝ)
    ((10.0 : ℚ) : ℝ) ((0.6 : ℚ) : ℝ) ((13.0 : ℚ) : ℝ) 0 0).2 = 0
  rw [integrate_push_eval]

/-- C7 counterexample: on the reachable trace that first pushes the stick
(velocity becomes 3), then toggles CONFIG on, waits one neutral tick and
toggles it off, the exit tick immediately runs the NORMAL motion block, so
the velocity ends at `3 * 0.6 = 1.8` — not the pre-toggle value 3 that the
claim requires.  No save edge and no pad change occur anywhere in the
trace. -/
theorem c7_counterexample :
    (run [c7i1, c7i2, c7i3, c7i4] (initState DEFAULT_PARAMS)).vx ≠
      (run [c7i1] (initState DEFAULT_PARAMS)).vx := by
  have h1vx : (tick c7i1 (initState DEFAULT_PARAMS)).1.vx = 3 := c7_s1_vx
  have h1vy : (tick c7i1 (initState DEFAULT_PARAMS)).1.vy = 0 := c7_s1_vy
  show (run [c7i2, c7i3, c7i4] (tick c7i1 (initState DEFAULT_PARAMS)).1).vx ≠
    (tick c7i1 (initState DEFAULT_PARAMS)).1.vx
  set s1 := (tick c7i1 (initState DEFAULT_PARAMS)).1 with hs1
  have h2 := tick_entry_neutral c7i2 s1 rfl rfl rfl rfl rfl
  show (run [c7i3, c7i4] (tick c7i2 s1).1).vx ≠ s1.vx
  rw [h2]
  have h3 : (tick c7i3
      { s1 with
        configMode := true
        btnState := Function.update (Function.update s1.btnState CId.cfg true)
          CId.save false }).1 =
      { s1 with
        configMode := true
        btnState := Function.update (Function.update
          (Function.update (Function.update s1.btnState CId.cfg true) CId.save false)
          CId.cfg false) CId.save false } :=
    tick_config_neutral c7i3 _ rfl rfl rfl rfl
  show (run [c7i4] (tick c7i3
    { s1 with
      configMode := true
      btnState := Function.update (Function.update s1.btnState CId.cfg true)
        CId.save false }).1).vx ≠ s1.vx
  rw [h3]
  have h4 := tick_eq_exit c7i4
    { s1 with
      configMode := true
      btnState := Function.update (Function.update
        (Function.update (Function.update s1.btnState CId.cfg true) CId.save false)
        CId.cfg false) CId.save false } rfl rfl rfl
  show (tick c7i4
    { s1 with
      configMode := true
      btnState := Function.update (Function.update
        (Function.update (Function.update s1.btnState CId.cfg true) CId.save false)
        CId.cfg false) CId.save false }).1.vx ≠ s1.vx
  rw [h4]
  dsimp only
  show (normalTick c7i4
    { s1 with
      configMode := false
      btnState := Function.update (Function.update (Function.update
        (Function.update (Function.update s1.btnState CId.cfg true) CId.save false)
        CId.cfg false) CId.save false) CId.cfg true }).1.vx ≠ s1.vx
  have hfacts := normalTick_exit_facts c7i4
    { s1 with
      configMode := false
      btnState := Function.update (Function.update (Function.update
        (Function.update (Function.update s1.btnState CId.cfg true) CId.save false)
        CId.cfg false) CId.save false) CId.cfg true } rfl rfl
  have hpair := hfacts.2.2.2.2 rfl
  have hvx4 : (normalTick c7i4
      { s1 with
        configMode := false
        btnState := Function.update (Function.update (Function.update
          (Function.update (Function.update s1.btnState CId.cfg true) CId.save false)
          CId.cfg false) CId.save false) CId.cfg true }).1.vx =
      (integrate ((condition 0 0 0.07).1 : ℝ) ((condition 0 0 0.07).2 : ℝ)
        ((10.0 : ℚ) : ℝ) ((0.6 : ℚ) : ℝ) ((13.0 : ℚ) : ℝ) s1.vx s1.vy).1 :=
    congrArg Prod.fst hpair
  rw [hvx4, h1vx, h1vy, integrate_rest_eval]
  norm_num

/-! ### Parameter adjustment stays in range -/

lemma adjust_mem_range {mn mx : ℚ} (step : ℚ) (h : mn ≤ mx) (d : Bool) (v : ℚ) :
    mn ≤ adjust step mn mx d v ∧ adjust step mn mx d v ≤ mx := by
  unfold adjust
  exact ⟨le_max_left _ _, max_le h (min_le_left _ _)⟩

/-- C5: for every `CONFIG_ITEMS` entry and every starting value in
`[mn, mx]`, any sequence of left/right adjustments (each applying `±step`,
rounded to two decimals when `step < 1`, then clamped) leaves the value
inside `[mn, mx]`; since every prefix of the sequence is again such a
sequence, the value is in range after each individual adjustment. -/
theorem c5_adjust_stays_in_range (item : ConfigItem) (hmem : item ∈ CONFIG_ITEMS)
    (dirs : List Bool) (v : ℚ) (hlo : item.mn ≤ v) (hhi : v ≤ item.mx) :
    item.mn ≤ dirs.foldl (fun val d => adjust item.step item.mn item.mx d val) v ∧
    dirs.foldl (fun val d => adjust item.step item.mn item.mx d val) v ≤ item.mx := by
  have h : item.mn ≤ item.mx := by
    fin_cases hmem <;> norm_num
  clear hmem
  induction dirs generalizing v with
  | nil => exact ⟨hlo, hhi⟩
  | cons d ds ih =>
      rw [List.foldl_cons]
      exact ih _ (adjust_mem_range item.step h d v).1 (adjust_mem_range item.step h d v).2

/-- C5 witness: the `max_velocity` item at value 13 stays within `[1, 30]`
after a right then ten left adjustments. -/
theorem c5_adjust_stays_in_range_witness :
    (⟨.max_velocity, 1.0, 1.0, 30.0⟩ : ConfigItem) ∈ CONFIG_ITEMS ∧
    (1.0 : ℚ) ≤ [true, false, false, false, false, false, false, false, false, false,
        false].foldl (fun val d => adjust 1.0 1.0 30.0 d val) 13 ∧
    [true, false, false, false, false, false, false, false, false, false,
        false].foldl (fun val d => adjust 1.0 1.0 30.0 d val) 13 ≤ 30.0 := by
  have hmem : (⟨.max_velocity, 1.0, 1.0, 30.0⟩ : ConfigItem) ∈ CONFIG_ITEMS := by
    simp [CONFIG_ITEMS]
  refine ⟨hmem, ?_⟩
  exact c5_adjust_stays_in_range ⟨.max_velocity, 1.0, 1.0, 30.0⟩ hmem
    [true, false, false, false, false, false, false, false, false, false, false]
    13 (by norm_num) (by norm_num)

/-! ### The velocity clamp -/

/-- C6: when the speed `sqrt (vx² + vy²)` is zero (and the velocity ceiling
is nonnegative, as it is for every reachable `max_velocity`), the clamp
branch of the integration step is not taken, so the divisions `vx / speed`
and `vy / speed` are never evaluated with a zero divisor. -/
theorem c6_zero_speed_skips_clamp (maxVel vx vy : ℝ)
    (h0 : Real.sqrt (vx ^ 2 + vy ^ 2) = 0) (hm : 0 ≤ maxVel) :
    clampVel maxVel vx vy = (vx, vy) :=
  clampVel_of_le (h0 ▸ hm)

/-- C6 witness: at rest with the default ceiling 13 the clamp is a no-op. -/
theorem c6_zero_speed_skips_clamp_witness :
    Real.sqrt ((0 : ℝ) ^ 2 + 0 ^ 2) = 0 ∧ clampVel 13 0 0 = (0, 0) :=
  ⟨by simp, c6_zero_speed_skips_clamp 13 0 0 (by simp) (by norm_num)⟩

/-- C1: after one integration step the velocity magnitude is at most
`maxVel` (exactly, with no epsilon needed), and whenever the clamp fires
both components are the pre-clamp components scaled by the common factor
`maxVel / speed`, preserving direction. -/
theorem c1_magnitude_bounded (fx fy accel fric maxVel vx vy : ℝ) (hm : 0 ≤ maxVel) :
    Real.sqrt ((integrate fx fy accel fric maxVel vx vy).1 ^ 2 +
      (integrate fx fy accel fric maxVel vx vy).2 ^ 2) ≤ maxVel ∧
    (maxVel < Real.sqrt (((vx + fx * accel) * fric) ^ 2 + ((vy + fy * accel) * fric) ^ 2) →
      integrate fx fy accel fric maxVel vx vy =
        ((vx + fx * accel) * fric *
          (maxVel / Real.sqrt (((vx + fx * accel) * fric) ^ 2 + ((vy + fy * accel) * fric) ^ 2)),
         (vy + fy * accel) * fric *
          (maxVel / Real.sqrt (((vx + fx * accel) * fric) ^ 2 + ((vy + fy * accel) * fric) ^ 2)))) := by
  set a := (vx + fx * accel) * fric with ha
  set b := (vy + fy * accel) * fric with hb
  have hint : integrate fx fy accel fric maxVel vx vy = clampVel maxVel a b := rfl
  constructor
  · rw [hint]
    by_cases h : maxVel < Real.sqrt (a ^ 2 + b ^ 2)
    · have hs0 : 0 < Real.sqrt (a ^ 2 + b ^ 2) := lt_of_le_of_lt hm h
      have hsq : Real.sqrt (a ^ 2 + b ^ 2) ^ 2 = a ^ 2 + b ^ 2 :=
        Real.sq_sqrt (by positivity)
      rw [clampVel_of_gt h]
      have hval : (a * (maxVel / Real.sqrt (a ^ 2 + b ^ 2))) ^ 2 +
          (b * (maxVel / Real.sqrt (a ^ 2 + b ^ 2))) ^ 2 = maxVel ^ 2 := by
        have : (a * (maxVel / Real.sqrt (a ^ 2 + b ^ 2))) ^ 2 +
            (b * (maxVel / Real.sqrt (a ^ 2 + b ^ 2))) ^ 2 =
            (a ^ 2 + b ^ 2) / Real.sqrt (a ^ 2 + b ^ 2) ^ 2 * maxVel ^ 2 := by
          ring
        rw [this, hsq, div_self (ne_of_gt (hsq ▸ pow_pos hs0 2)), one_mul]
      rw [hval, Real.sqrt_sq hm]
    · push_neg at h
      rw [clampVel_of_le h]
      exact h
  · intro h
    rw [hint, clampVel_of_gt h]

/-- C1 witness: a hard push (`fx = 1`, `accel = 20`, `fric = 1`) from rest
with ceiling 1 stays within magnitude 1. -/
theorem c1_magnitude_bounded_witness :
    (0 : ℝ) ≤ 1 ∧
    Real.sqrt ((integrate 1 0 20 1 1 0 0).1 ^ 2 + (integrate 1 0 20 1 1 0 0).2 ^ 2) ≤ 1 :=
  ⟨by norm_num, (c1_magnitude_bounded 1 0 20 1 1 0 0 (by norm_num)).1⟩

/-- C9: with deadzone `0.07` a raw axis value `0.05` is filtered to exactly
`0`; with raw `0.5`, `accel = 10`, `friction = 0.6`, `maxVel = 13`, starting
from velocity `(0, 0)`, one integration step yields `vx = 3` exactly. -/
theorem c9_scenario :
    (condition 0.05 0 0.07).1 = 0 ∧
    (condition 0.5 0 0.07).1 = 0.5 ∧
    integrate ((condition 0.5 0 0.07).1 : ℝ) ((condition 0.5 0 0.07).2 : ℝ)
      10 0.6 13 0 0 = (3, 0) := by
  have hx : (condition 0.5 0 0.07).1 = 0.5 := by
    norm_num [condition, abs_of_nonneg]
  have hy : (condition 0.5 0 0.07).2 = 0 := by
    norm_num [condition]
  refine ⟨by norm_num [condition, abs_of_nonneg], hx, ?_⟩
  rw [hx, hy]
  have ha : ((0 : ℝ) + ((0.5 : ℚ) : ℝ) * 10) * 0.6 = 3 := by
    norm_num
  have hb : ((0 : ℝ) + ((0 : ℚ) : ℝ) * 10) * 0.6 = 0 := by
    norm_num
  unfold integrate
  rw [ha, hb]
  rw [clampVel_of_le (by
    rw [show ((3 : ℝ) ^ 2 + 0 ^ 2) = 3 ^ 2 by norm_num,
      Real.sqrt_sq (by norm_num : (0 : ℝ) ≤ 3)]
    norm_num)]

end JoystickMouse
